import Mathlib

/-!
Verification of the air-quality analysis pipeline of the `amvoca34`
repository (Streamlit pages under `Year_Analysis/pages/`).

The Python/pandas code is shallowly embedded: a dataframe becomes a list of
typed rows, `groupby` becomes key-deduplication plus filtering, the inner
`merge` used for the coverage rule becomes a filter by the coverage
predicate (pandas inner merges preserve the order of the left keys, as does
`List.filter`), and Python floats are idealised as rationals.  Python
`round` is round-half-to-even, embedded as `pyRound`; `round(x, 1)` becomes
`round1`.  Missing values (`NaN`) are represented with `Option`, and the
pandas `KeyError` raised by a named aggregation over an absent column is
represented with `Except`.  All embedded functions are total Lean
functions, which reflects that the corresponding Python code paths raise no
exception.
-/

unseal Rat.add Rat.mul Rat.inv Rat.sub

/-- Round-half-to-even on rationals: the semantics of Python `round(x)`
applied to a (here idealised) float. -/
def pyRound (q : ℚ) : ℤ :=
  if q - ⌊q⌋ < 1/2 then ⌊q⌋
  else if 1/2 < q - ⌊q⌋ then ⌊q⌋ + 1
  else if (⌊q⌋ : ℤ) % 2 = 0 then ⌊q⌋ else ⌊q⌋ + 1

/-- Python `round(x, 1)`: round to one decimal place, half to even. -/
def round1 (q : ℚ) : ℚ := (pyRound (10 * q) : ℚ) / 10

theorem floor_le_pyRound (q : ℚ) : ⌊q⌋ ≤ pyRound q := by
  unfold pyRound
  split_ifs <;> omega

theorem pyRound_le_ceil (q : ℚ) : pyRound q ≤ ⌈q⌉ := by
  have hfc : ⌈q⌉ ≤ ⌊q⌋ + 1 := Int.ceil_le_floor_add_one q
  have hle : (⌊q⌋ : ℚ) ≤ q := Int.floor_le q
  have hqc : q ≤ (⌈q⌉ : ℚ) := Int.le_ceil q
  unfold pyRound
  split_ifs with h1 h2 h3
  · exact le_trans (Int.floor_le_ceil q) (le_refl _)
  · -- the fractional part exceeds 1/2, so q is not an integer
    have hne : (⌊q⌋ : ℚ) < q := by linarith
    have : (⌊q⌋ : ℤ) < ⌈q⌉ := by
      by_contra hcon
      push_neg at hcon
      have := Int.ceil_le.mp hcon
      have : q ≤ (⌊q⌋ : ℚ) := by
        calc q ≤ (⌈q⌉ : ℚ) := hqc
        _ ≤ (⌊q⌋ : ℚ) := by exact_mod_cast Int.cast_le.mpr hcon
      linarith
    omega
  · exact le_trans (Int.floor_le_ceil q) (le_refl _)
  · -- the fractional part is exactly 1/2, so q is not an integer
    have hne : (⌊q⌋ : ℚ) < q := by
      have h12 : q - (⌊q⌋ : ℚ) = 1/2 := by linarith
      linarith
    have : (⌊q⌋ : ℤ) < ⌈q⌉ := by
      by_contra hcon
      push_neg at hcon
      have : q ≤ (⌊q⌋ : ℚ) := by
        calc q ≤ (⌈q⌉ : ℚ) := hqc
        _ ≤ (⌊q⌋ : ℚ) := by exact_mod_cast Int.cast_le.mpr hcon
      linarith
    omega

theorem pyRound_bounds (q : ℚ) (a b : ℤ) (h1 : (a : ℚ) ≤ q) (h2 : q ≤ (b : ℚ)) :
    a ≤ pyRound q ∧ pyRound q ≤ b := by
  constructor
  · exact le_trans (Int.le_floor.mpr h1) (floor_le_pyRound q)
  · exact le_trans (pyRound_le_ceil q) (Int.ceil_le.mpr h2)

/-- Arithmetic mean of a list of rationals, the embedding of pandas
`mean` (groups are always non-empty, so the division is never by zero). -/
def meanQ (l : List ℚ) : ℚ := l.sum / (l.length : ℚ)

/-! ## Calendar model

The pandas datetime accessors used by the cleaners (`dt.year`,
`dt.to_period`, `dt.date`, `dt.day_name`, `dt.weekday`, `dt.month`) are
embedded over an explicit timestamp record.  The weekday is computed with
the standard days-from-civil algorithm (proleptic Gregorian calendar),
matching the pandas calendar. -/

/-- A timezone-stripped timestamp, the embedding of a pandas `Timestamp`. -/
structure Timestamp where
  year : ℤ
  month : ℕ
  dayOfMonth : ℕ
  hour : ℕ
  minute : ℕ
  second : ℕ
deriving DecidableEq, Repr

/-- A calendar date, the embedding of `datetime.date` produced by
`dt.date`. -/
structure DateD where
  year : ℤ
  month : ℕ
  dayOfMonth : ℕ
deriving DecidableEq, Repr

/-- Days since 1970-01-01 of a proleptic-Gregorian civil date
(Hinnant days-from-civil algorithm, floor division on the year). -/
def daysFromCivil (y : ℤ) (m d : ℕ) : ℤ :=
  let y2 : ℤ := if m ≤ 2 then y - 1 else y
  let era : ℤ := Int.fdiv y2 400
  let yoe : ℤ := y2 - era * 400
  let mp : ℤ := Int.emod ((m : ℤ) + 9) 12
  let doy : ℤ := (153 * mp + 2) / 5 + (d : ℤ) - 1
  let doe : ℤ := yoe * 365 + yoe / 4 - yoe / 100 + doy
  era * 146097 + doe - 719468

/-- Weekday number as pandas `dt.weekday`: Monday = 0 … Sunday = 6
(1970-01-01 was a Thursday, weekday 3). -/
def weekdayNum (y : ℤ) (m d : ℕ) : ℕ := (Int.emod (daysFromCivil y m d + 3) 7).toNat

/-- Weekday name as pandas `dt.day_name()`. -/
def dayNameOf (w : ℕ) : String :=
  if w = 0 then "Monday"
  else if w = 1 then "Tuesday"
  else if w = 2 then "Wednesday"
  else if w = 3 then "Thursday"
  else if w = 4 then "Friday"
  else if w = 5 then "Saturday"
  else "Sunday"

/-- Monthly period string as pandas `dt.to_period(M).astype(str)`,
for example `2023-01`. -/
def monthStr (y : ℤ) (m : ℕ) : String :=
  toString y ++ "-" ++ (if m < 10 then "0" ++ toString m else toString m)

/-- Quarterly period string as pandas `dt.to_period(Q).astype(str)`,
for example `2023Q1`. -/
def quarterStr (y : ℤ) (m : ℕ) : String :=
  toString y ++ "Q" ++ toString ((m - 1) / 3 + 1)

/-! ## Record Cleaner, Quant AQ variant
(`Year_Analysis/pages/2_Quant_AQ_Data.py`, function `cleaned`, lines
203-229).

The row types assume the six required columns `datetime, site, pm25, pm10,
temp, rh` are present and non-null: the source first restricts to exactly
these columns and runs `dropna()`, and the page rejects frames in which any
of them is missing.  The source additionally checks a `pm1` column for
positivity, but `pm1` is not in `required_columns`, so after the column
restriction it can never be present; it is therefore absent from the
embedding. -/

/-- An input row for the Quant AQ cleaner: the required columns after
column restriction and `dropna`. -/
structure QRow where
  datetime : Timestamp
  site : String
  pm25 : ℚ
  pm10 : ℚ
  temp : ℚ
  rh : ℚ
deriving DecidableEq, Repr

/-- A cleaned Quant AQ row: the required columns plus the corrected PM2.5
and the derived calendar fields, in the column order the source produces. -/
structure CRow where
  datetime : Timestamp
  site : String
  pm25 : ℚ
  pm10 : ℚ
  temp : ℚ
  rh : ℚ
  corrected_pm25 : ℚ
  year : ℤ
  month : String
  quarter : String
  day : DateD
  dayofweek : String
  weekday_type : String
  season : String
deriving DecidableEq, Repr

/-- Positivity filter of the Quant cleaner: keep only rows with all of
pm25, pm10, temp, rh strictly positive (source lines 210-212). -/
def posOK (r : QRow) : Bool :=
  decide (0 < r.pm25) && decide (0 < r.pm10) && decide (0 < r.temp) && decide (0 < r.rh)

/-- Correction formula and calendar-field derivation of the Quant cleaner
(source lines 214-224). -/
def enrich (r : QRow) : CRow :=
  { datetime := r.datetime
    site := r.site
    pm25 := r.pm25
    pm10 := r.pm10
    temp := r.temp
    rh := r.rh
    corrected_pm25 := 94/100 * r.pm25 - 34/100 * r.temp - 8/100 * r.rh + 1982/100
    year := r.datetime.year
    month := monthStr r.datetime.year r.datetime.month
    quarter := quarterStr r.datetime.year r.datetime.month
    day := ⟨r.datetime.year, r.datetime.month, r.datetime.dayOfMonth⟩
    dayofweek := dayNameOf (weekdayNum r.datetime.year r.datetime.month r.datetime.dayOfMonth)
    weekday_type :=
      if 5 ≤ weekdayNum r.datetime.year r.datetime.month r.datetime.dayOfMonth
      then "Weekend" else "Weekday"
    season :=
      if r.datetime.month = 12 ∨ r.datetime.month = 1 ∨ r.datetime.month = 2
      then "Harmattan" else "Non-Harmattan" }

/-- The Quant cleaner up to but excluding the coverage rule: positivity
filter, then correction and calendar derivation. -/
def enrichAll (df : List QRow) : List CRow := (df.filter posOK).map enrich

/-- Count of distinct observed days of one (site, month) group, the
embedding of `groupby(site, month).day.nunique()` (source line 226). -/
def covCount (rows : List CRow) (s mo : String) : ℕ :=
  (((rows.filter fun r => decide (r.site = s ∧ r.month = mo)).map CRow.day).dedup).length

/-- The Quant AQ Record Cleaner (source lines 203-229): positivity filter,
PM2.5 correction, calendar derivation, then the coverage rule keeping only
rows whose (site, month) group has at least 20 distinct observed days
(an inner merge with the sufficient keys, which preserves row order). -/
def cleaned (df : List QRow) : List CRow :=
  let e := enrichAll df
  e.filter fun r => decide (20 ≤ covCount e r.site r.month)

/-- Restriction of a cleaned row back to the required input columns: the
column-selection step `df[required_columns]` performed when `cleaned` is
run a second time on its own output. -/
def CRow.toQ (r : CRow) : QRow :=
  ⟨r.datetime, r.site, r.pm25, r.pm10, r.temp, r.rh⟩

/-! ## Record Cleaner, Airqo variant
(`Year_Analysis/pages/5_Airqo_Data.py`, function `cleaned`, lines 202-219).

This variant has no positivity filter and no correction formula; its
coverage threshold is 15 distinct days per (site, month). -/

/-- An input row for the Airqo cleaner: required columns `datetime, site,
pm25, pm10` after column restriction and `dropna`. -/
structure ARow where
  datetime : Timestamp
  site : String
  pm25 : ℚ
  pm10 : ℚ
deriving DecidableEq, Repr

/-- A cleaned Airqo row: the required columns plus the derived calendar
fields. -/
structure ACRow where
  datetime : Timestamp
  site : String
  pm25 : ℚ
  pm10 : ℚ
  year : ℤ
  month : String
  quarter : String
  day : DateD
  dayofweek : String
  weekday_type : String
  season : String
deriving DecidableEq, Repr

/-- Calendar-field derivation of the Airqo cleaner (source lines 208-214),
identical to the Quant derivation but with no correction column. -/
def enrichA (r : ARow) : ACRow :=
  { datetime := r.datetime
    site := r.site
    pm25 := r.pm25
    pm10 := r.pm10
    year := r.datetime.year
    month := monthStr r.datetime.year r.datetime.month
    quarter := quarterStr r.datetime.year r.datetime.month
    day := ⟨r.datetime.year, r.datetime.month, r.datetime.dayOfMonth⟩
    dayofweek := dayNameOf (weekdayNum r.datetime.year r.datetime.month r.datetime.dayOfMonth)
    weekday_type :=
      if 5 ≤ weekdayNum r.datetime.year r.datetime.month r.datetime.dayOfMonth
      then "Weekend" else "Weekday"
    season :=
      if r.datetime.month = 12 ∨ r.datetime.month = 1 ∨ r.datetime.month = 2
      then "Harmattan" else "Non-Harmattan" }

/-- Distinct observed days of one (site, month) group of Airqo rows
(source line 217). -/
def covCountA (rows : List ACRow) (s mo : String) : ℕ :=
  (((rows.filter fun r => decide (r.site = s ∧ r.month = mo)).map ACRow.day).dedup).length

/-- The Airqo Record Cleaner (source lines 202-219): calendar derivation,
then the coverage rule with threshold 15 distinct days per (site, month). -/
def cleaned_airqo (df : List ARow) : List ACRow :=
  let e := df.map enrichA
  e.filter fun r => decide (15 ≤ covCountA e r.site r.month)

/-! ## Record Cleaner, Gravimetric variant
(`Year_Analysis/pages/3_Gravimetric_Data.py`, function `cleaned`, lines
21-36).

This variant derives the calendar fields and nothing else: it has no
positivity filter, no correction formula, and in particular NO coverage
rule — `daily_counts` / `sufficient_sites` do not appear in it. -/

/-- An input row for the gravimetric cleaner: required columns `date, site,
pm25, pm10` after column restriction and `dropna`. -/
structure GRow where
  date : Timestamp
  site : String
  pm25 : ℚ
  pm10 : ℚ
deriving DecidableEq, Repr

/-- A cleaned gravimetric row. -/
structure GCRow where
  date : Timestamp
  site : String
  pm25 : ℚ
  pm10 : ℚ
  year : ℤ
  month : String
  quarter : String
  day : DateD
  dayofweek : String
  weekday_type : String
  season : String
deriving DecidableEq, Repr

/-- Calendar-field derivation of the gravimetric cleaner (source lines
28-34). -/
def enrichG (r : GRow) : GCRow :=
  { date := r.date
    site := r.site
    pm25 := r.pm25
    pm10 := r.pm10
    year := r.date.year
    month := monthStr r.date.year r.date.month
    quarter := quarterStr r.date.year r.date.month
    day := ⟨r.date.year, r.date.month, r.date.dayOfMonth⟩
    dayofweek := dayNameOf (weekdayNum r.date.year r.date.month r.date.dayOfMonth)
    weekday_type :=
      if 5 ≤ weekdayNum r.date.year r.date.month r.date.dayOfMonth
      then "Weekend" else "Weekday"
    season :=
      if r.date.month = 12 ∨ r.date.month = 1 ∨ r.date.month = 2
      then "Harmattan" else "Non-Harmattan" }

/-- The gravimetric Record Cleaner (source lines 21-36): column handling
and calendar derivation only, with no coverage rule. -/
def cleaned_grav (df : List GRow) : List GCRow := df.map enrichG

/-- Distinct observed days of one (site, month) group of gravimetric
rows (the Coverage Key count of the spec data model, computed here only to
state properties — the gravimetric source never computes it). -/
def covCountG (rows : List GCRow) (s mo : String) : ℕ :=
  (((rows.filter fun r => decide (r.site = s ∧ r.month = mo)).map GCRow.day).dedup).length

/-! ## Group-by machinery

pandas `groupby(keys).agg` over a frame becomes: deduplicate the key
tuples in first-appearance order (pandas `sort=False` ordering is by first
appearance; with `sort=True` only the display order differs), and for each
key aggregate the rows having that key. -/

/-- The distinct key tuples of a list, in order of first appearance. -/
def groupKeys {α κ : Type} [DecidableEq κ] (key : α → κ) (l : List α) : List κ :=
  (l.map key).dedup

/-- The rows of one group. -/
def groupRows {α κ : Type} [DecidableEq κ] (key : α → κ) (l : List α) (k : κ) : List α :=
  l.filter fun a => decide (key a = k)

/-- The embedding of `groupby(keys).size()`: each distinct key paired with
its group size. -/
def countsBy {α κ : Type} [DecidableEq κ] (key : α → κ) (l : List α) : List (κ × ℕ) :=
  (groupKeys key l).map fun k => (k, (groupRows key l k).length)

/-- Lookup of a key in a `countsBy` table, defaulting to 0: the embedding
of a left merge on the key followed by `fillna(0)`. -/
def lookup0 {κ : Type} [DecidableEq κ] (t : List (κ × ℕ)) (k : κ) : ℕ :=
  match t.find? (fun p => decide (p.1 = k)) with
  | some p => p.2
  | none => 0

/-! ## Daily collapse and Exceedance Calculator, Quant AQ variant
(`2_Quant_AQ_Data.py`, `calculate_exceedances`, lines 268-283). -/

/-- A row of the `daily_avg` frame: one row per (site, day, year, month)
key with the group means of `corrected_pm25` and `pm10`. -/
structure DRow where
  site : String
  day : DateD
  year : ℤ
  month : String
  corrected_pm25 : ℚ
  pm10 : ℚ
deriving DecidableEq, Repr

/-- The (site, day, year, month) grouping key of a cleaned Quant row. -/
def dKey (r : CRow) : String × DateD × ℤ × String := (r.site, r.day, r.year, r.month)

/-- One aggregated row of the daily collapse: the group key components and
the group means of `corrected_pm25` and `pm10`. -/
def dailyMk (df : List CRow) (k : String × DateD × ℤ × String) : DRow :=
  { site := k.1
    day := k.2.1
    year := k.2.2.1
    month := k.2.2.2
    corrected_pm25 := meanQ ((groupRows dKey df k).map CRow.corrected_pm25)
    pm10 := meanQ ((groupRows dKey df k).map CRow.pm10) }

/-- The embedding of the daily collapse
`df.groupby([site, day, year, month]).agg(corrected_pm25 mean, pm10 mean)`
(source lines 269-272, also the first step of `calculate_min_max` and
`calculate_aqi_and_category`). -/
def daily_avg (df : List CRow) : List DRow :=
  (groupKeys dKey df).map (dailyMk df)

/-- The (year, site) key of a daily row. -/
def ysKey (d : DRow) : ℤ × String := (d.year, d.site)

/-- The full (site, day, year, month) key of a daily row. -/
def dKeyD (d : DRow) : String × DateD × ℤ × String := (d.site, d.day, d.year, d.month)

/-- One output row of the Exceedance Calculator. -/
structure ExRow where
  year : ℤ
  site : String
  total_records : ℕ
  pm25_exceedance_count : ℕ
  pm10_exceedance_count : ℕ
  pm25_exceedance_percent : ℚ
  pm10_exceedance_percent : ℚ
deriving DecidableEq, Repr

/-- The Quant AQ Exceedance Calculator (source lines 268-283): collapse to
daily means, count days with corrected PM2.5 above 35 and days with PM10
above 70 per (year, site), left-merge the counts onto the total-day table
with `fillna(0)`, then add the rounded percentages. -/
def calculate_exceedances (df : List CRow) : List ExRow :=
  let da := daily_avg df
  let pm25_exceed := countsBy ysKey (da.filter fun d => decide (35 < d.corrected_pm25))
  let pm10_exceed := countsBy ysKey (da.filter fun d => decide (70 < d.pm10))
  let total_days := countsBy ysKey da
  total_days.map fun p =>
    let c25 := lookup0 pm25_exceed p.1
    let c10 := lookup0 pm10_exceed p.1
    { year := p.1.1
      site := p.1.2
      total_records := p.2
      pm25_exceedance_count := c25
      pm10_exceedance_count := c10
      pm25_exceedance_percent := round1 ((c25 : ℚ) / (p.2 : ℚ) * 100)
      pm10_exceedance_percent := round1 ((c10 : ℚ) / (p.2 : ℚ) * 100) }

/-! ## Min/Max Summarizer, Quant AQ variant
(`2_Quant_AQ_Data.py`, `calculate_min_max`, lines 285-296).

The source builds `daily_avg` with only the columns
`site, day, year, month, corrected_pm25, pm10`, then issues a named
aggregation referencing a column `pm25`.  pandas validates named-
aggregation columns against the frame columns and raises `KeyError` when
one is absent, so the column list of the intermediate frame is part of the
embedding and the function returns `Except`. -/

/-- The columns of the `daily_avg` intermediate frame of the Quant
`calculate_min_max` (group keys plus the two aggregated columns). -/
def quant_daily_avg_columns : List String :=
  ["site", "day", "year", "month", "corrected_pm25", "pm10"]

/-- One output row of a Min/Max Summarizer. -/
structure MRow where
  year : ℤ
  site : String
  month : String
  daily_avg_pm10_max : ℚ
  daily_avg_pm10_min : ℚ
  daily_avg_pm25_max : ℚ
  daily_avg_pm25_min : ℚ
deriving DecidableEq, Repr

/-- Maximum of a list of rationals (pandas `max` over a non-empty group;
0 is an unused default for the impossible empty group). -/
def maxQ (l : List ℚ) : ℚ := l.foldr max (l.headD 0)

/-- Minimum of a list of rationals. -/
def minQ (l : List ℚ) : ℚ := l.foldr min (l.headD 0)

/-- The (year, site, month) key of a daily row. -/
def ysmKey (d : DRow) : ℤ × String × String := (d.year, d.site, d.month)

/-- The Quant AQ Min/Max Summarizer (source lines 285-296).  Its named
aggregation references columns `pm10` and `pm25` of `daily_avg`; `pm25` is
not among `quant_daily_avg_columns`, so pandas raises `KeyError` — the
embedding returns `Except.error` in exactly that case. -/
def calculate_min_max (df : List CRow) : Except String (List MRow) :=
  let da := daily_avg df
  if ("pm10" ∈ quant_daily_avg_columns ∧ "pm25" ∈ quant_daily_avg_columns) then
    Except.ok ((groupKeys ysmKey da).map fun k =>
      let g := groupRows ysmKey da k
      { year := k.1
        site := k.2.1
        month := k.2.2
        daily_avg_pm10_max := round1 (maxQ (g.map DRow.pm10))
        daily_avg_pm10_min := round1 (minQ (g.map DRow.pm10))
        daily_avg_pm25_max := round1 (maxQ (g.map DRow.corrected_pm25))
        daily_avg_pm25_min := round1 (minQ (g.map DRow.corrected_pm25)) })
  else
    Except.error "KeyError: column pm25 does not exist in daily_avg"

/-- The gravimetric daily collapse (`3_Gravimetric_Data.py`, lines 95-98,
inside `calculate_min_max`): group by (site, day, year) averaging raw
`pm25` and `pm10`.  Its columns are `site, day, year, pm25, pm10`, so the
named aggregation over `pm25` and `pm10` is valid there. -/
def daily_avg_grav_minmax (df : List GCRow) : List (String × DateD × ℤ × ℚ × ℚ) :=
  (groupKeys (fun r : GCRow => (r.site, r.day, r.year)) df).map fun k =>
    let g := groupRows (fun r : GCRow => (r.site, r.day, r.year)) df k
    (k.1, k.2.1, k.2.2, meanQ (g.map GCRow.pm25), meanQ (g.map GCRow.pm10))

/-- The gravimetric Min/Max Summarizer (source lines 94-105): per
(year, site), rounded max and min of the daily averages of `pm10` and
`pm25` (the `month` field of `MRow` is unused by this variant and set to
the empty string). -/
def calculate_min_max_grav (df : List GCRow) : List MRow :=
  let da := daily_avg_grav_minmax df
  (groupKeys (fun d : String × DateD × ℤ × ℚ × ℚ => (d.2.2.1, d.1)) da).map fun k =>
    let g := groupRows (fun d : String × DateD × ℤ × ℚ × ℚ => (d.2.2.1, d.1)) da k
    { year := k.1
      site := k.2
      month := ""
      daily_avg_pm10_max := round1 (maxQ (g.map fun d => d.2.2.2.2))
      daily_avg_pm10_min := round1 (minQ (g.map fun d => d.2.2.2.2))
      daily_avg_pm25_max := round1 (maxQ (g.map fun d => d.2.2.2.1))
      daily_avg_pm25_min := round1 (minQ (g.map fun d => d.2.2.2.1)) }

/-! ## AQI Engine
(`2_Quant_AQ_Data.py`, `calculate_aqi_and_category`, lines 298-334; the
inner `calculate_aqi` is lines 312-316).  The identical breakpoint table
and loop appear in the gravimetric and Airqo pages. -/

/-- The breakpoint table `(low_conc, high_conc, low_index, high_index)`
(source lines 302-310). -/
def breakpoints : List (ℚ × ℚ × ℤ × ℤ) :=
  [ (0, 9, 0, 50),
    (91/10, 354/10, 51, 100),
    (355/10, 554/10, 101, 150),
    (555/10, 1254/10, 151, 200),
    (1255/10, 2254/10, 201, 300),
    (2255/10, 3254/10, 301, 500),
    (3255/10, 999999/10, 501, 999) ]

/-- The band-scanning loop of `calculate_aqi`: the first band with
`low <= pm <= high` wins and yields the rounded linear interpolation;
no band yields `np.nan`, embedded as `none`. -/
def aqiLoop (pm : ℚ) : List (ℚ × ℚ × ℤ × ℤ) → Option ℤ
  | [] => none
  | (low, high, aqi_low, aqi_high) :: rest =>
      if low ≤ pm ∧ pm ≤ high then
        some (pyRound ((pm - low) * ((aqi_high : ℚ) - (aqi_low : ℚ)) / (high - low) + (aqi_low : ℚ)))
      else aqiLoop pm rest

/-- The AQI engine over a single concentration (source lines 312-316), a
total function: the Python loop either returns a rounded index or falls
through to `np.nan`, never raising. -/
def calculate_aqi (pm : ℚ) : Option ℤ := aqiLoop pm breakpoints

/-- The category remark derived from an AQI value by the descending
`np.select` conditions (source lines 319-328).  Every comparison against
`NaN` is false in pandas, so a missing AQI falls to the default
`Unknown`. -/
def aqi_remark : Option ℤ → String
  | none => "Unknown"
  | some a =>
      if a > 300 then "Hazardous"
      else if a > 200 then "Very Unhealthy"
      else if a > 150 then "Unhealthy"
      else if a > 100 then "Unhealthy for Sensitive Groups"
      else if a > 50 then "Moderate"
      else if a ≥ 0 then "Good"
      else "Unknown"

/-! ## Column Normalizer
(`2_Quant_AQ_Data.py`, `standardize_columns`, lines 242-255 and
`3_Gravimetric_Data.py`, lines 51-64; the Airqo page matches the
gravimetric alias sets).

Only the header list matters: the function renames columns and never
touches the rows.  The alias lists are taken verbatim from the two
variants; note the Quant list has NO `pm_2_5` entry. -/

/-- The `pm25` alias list of the Quant variant (source line 243). -/
def quant_pm25_cols : List String := ["pm25", "PM2.5", "pm25_avg", "pm2.5"]

/-- The `pm25` alias list of the gravimetric and Airqo variants
(gravimetric source line 52). -/
def grav_pm25_cols : List String := ["pm25", "PM2.5", "pm_2_5", "pm25_avg", "pm2.5"]

/-- The `pm10` alias list, shared by all variants. -/
def pm10_cols : List String := ["pm10", "PM10", "pm_10"]

/-- The `site` alias list, shared by all variants. -/
def site_cols : List String := ["site", "station", "location"]

/-- Lowercasing of one ASCII character, the embedding of Python
`str.lower` for the ASCII headers this system sees. -/
def lowerChar (c : Char) : Char :=
  if 'A' ≤ c ∧ c ≤ 'Z' then Char.ofNat (c.toNat + 32) else c

/-- The embedding of Python `str.lower()`. -/
def lowerStr (s : String) : String := ⟨s.data.map lowerChar⟩

/-- ASCII whitespace test for `str.strip()`. -/
def isSpaceChar (c : Char) : Bool :=
  c = ' ' || c = '\t' || c = '\n' || c = '\r'

/-- The embedding of Python `str.strip()`: drop leading and trailing
whitespace. -/
def stripStr (s : String) : String :=
  ⟨((s.data.dropWhile isSpaceChar).reverse.dropWhile isSpaceChar).reverse⟩

/-- The embedding of `col.strip().lower()` used by both the Column
Normalizer and the Record Cleaner header pass. -/
def stripLower (s : String) : String := lowerStr (stripStr s)

/-- Renaming of one header: the three `if` tests of the source compare the
stripped, lowercased header against the lowercased alias lists (the alias
lists are pairwise disjoint, so the sequential renames compose to this
single case split).  Unrecognized headers pass through unchanged. -/
def stdCol (pm25Aliases : List String) (c : String) : String :=
  if stripLower c ∈ pm25Aliases.map lowerStr then "pm25"
  else if stripLower c ∈ pm10_cols.map lowerStr then "pm10"
  else if stripLower c ∈ site_cols.map lowerStr then "site"
  else c

/-- The Quant `standardize_columns` on a header list (source lines
242-255), a total function on any header list. -/
def standardize_columns (cols : List String) : List String :=
  cols.map (stdCol quant_pm25_cols)

/-- The gravimetric/Airqo `standardize_columns` on a header list
(gravimetric source lines 51-64). -/
def standardize_columns_grav (cols : List String) : List String :=
  cols.map (stdCol grav_pm25_cols)

/-! ## Date Parser
(`2_Quant_AQ_Data.py`, `parse_dates`, lines 231-240).

The frame is modelled with explicit columns and cells, because this
function adds a column and the claim is about the frame being returned
unchanged.  `pd.to_datetime(series, utc=True, errors=coerce)` is
elementwise and never raises on string data, so the `try` body always
returns on the FIRST column whose name contains `date` or `time`; the
parser itself is a parameter `P`, a pure `Cell -> Option Timestamp`
function standing for the pandas string-to-datetime coercion (failures
become `NaT`, embedded as `none`). -/

/-- A dataframe cell: a string, a parsed timestamp, or a missing value. -/
inductive Cell
  | str (v : String)
  | ts (v : Timestamp)
  | na
deriving DecidableEq, Repr

/-- A dataframe with named columns, the embedding used by the Date
Parser. -/
structure DF where
  cols : List String
  rows : List (List Cell)
deriving DecidableEq, Repr

/-- Whether a character list starts with a pattern. -/
def startsWithL : List Char → List Char → Bool
  | [], _ => true
  | _ :: _, [] => false
  | p :: ps, c :: cs => p == c && startsWithL ps cs

/-- Whether a pattern occurs anywhere in a character list. -/
def occursL (pat : List Char) : List Char → Bool
  | [] => pat.isEmpty
  | c :: cs => startsWithL pat (c :: cs) || occursL pat cs

/-- Whether a pattern occurs inside a string: the Python `in` operator on
strings. -/
def containsSub (s pat : String) : Bool := occursL pat.data s.data

/-- The candidate test of the Date Parser loop: the lowercased column name
contains `date` or `time` (source line 233). -/
def isDateTimeName (c : String) : Bool :=
  containsSub (lowerStr c) "date" || containsSub (lowerStr c) "time"

/-- Index of a named column, the embedding of pandas column lookup. -/
def colIdx (cols : List String) (c : String) : Option ℕ :=
  cols.findIdx? fun x => x == c

/-- Column assignment `df[c] = vals`: overwrite the column in place when
the name exists, otherwise append it on the right. -/
def assignCol (df : DF) (c : String) (vals : List Cell) : DF :=
  match colIdx df.cols c with
  | some i => ⟨df.cols, (df.rows.zip vals).map fun p => p.1.set i p.2⟩
  | none => ⟨df.cols ++ [c], (df.rows.zip vals).map fun p => p.1 ++ [p.2]⟩

/-- Whether a cell is missing. -/
def isNaCell : Cell → Bool
  | Cell.na => true
  | _ => false

/-- The embedding of `df.dropna(subset=[c])`. -/
def dropnaSubset (df : DF) (c : String) : DF :=
  match colIdx df.cols c with
  | some j => ⟨df.cols, df.rows.filter fun r => !(isNaCell (r.getD j Cell.na))⟩
  | none => df

/-- Conversion of a parse result to a stored cell (`NaT` for failures). -/
def toCell : Option Timestamp → Cell
  | some t => Cell.ts t
  | none => Cell.na

/-- The Quant Date Parser (source lines 231-240): on the first column
whose name contains `date` or `time`, coerce every value with the parser
`P`, store the results under `datetime`, and drop the rows whose value
failed to parse; with no candidate column, return the frame unchanged.
The bare `except: continue` never fires for the coercing parse, and the
function is total: it never raises. -/
def parse_dates (P : Cell → Option Timestamp) (df : DF) : DF :=
  match (df.cols.findIdx? isDateTimeName) with
  | none => df
  | some i =>
      let vals := df.rows.map fun r => toCell (P (r.getD i Cell.na))
      dropnaSubset (assignCol df "datetime" vals) "datetime"

/-! ## Theorems about the AQI Engine -/

theorem interp_bounds (pm low high : ℚ) (al ah : ℤ) (hlh : low < high) (hi : al ≤ ah)
    (h1 : low ≤ pm) (h2 : pm ≤ high) :
    al ≤ pyRound ((pm - low) * ((ah : ℚ) - (al : ℚ)) / (high - low) + (al : ℚ)) ∧
    pyRound ((pm - low) * ((ah : ℚ) - (al : ℚ)) / (high - low) + (al : ℚ)) ≤ ah := by
  have hpos : (0 : ℚ) < high - low := by linarith
  have hcast : (0 : ℚ) ≤ (ah : ℚ) - (al : ℚ) := by
    have : (al : ℚ) ≤ (ah : ℚ) := by exact_mod_cast hi
    linarith
  have hlow : (al : ℚ) ≤ (pm - low) * ((ah : ℚ) - (al : ℚ)) / (high - low) + (al : ℚ) := by
    have : 0 ≤ (pm - low) * ((ah : ℚ) - (al : ℚ)) / (high - low) :=
      div_nonneg (mul_nonneg (by linarith) hcast) (le_of_lt hpos)
    linarith
  have hup : (pm - low) * ((ah : ℚ) - (al : ℚ)) / (high - low) + (al : ℚ) ≤ (ah : ℚ) := by
    have hm : (pm - low) * ((ah : ℚ) - (al : ℚ)) ≤ (high - low) * ((ah : ℚ) - (al : ℚ)) :=
      mul_le_mul_of_nonneg_right (by linarith) hcast
    have : (pm - low) * ((ah : ℚ) - (al : ℚ)) / (high - low) ≤ (ah : ℚ) - (al : ℚ) := by
      rw [div_le_iff₀ hpos]
      linarith
    linarith
  exact pyRound_bounds _ al ah hlow hup

theorem aqiLoop_eq_none (pm : ℚ) : ∀ (bs : List (ℚ × ℚ × ℤ × ℤ)),
    (∀ low high al ah, (low, high, al, ah) ∈ bs → ¬(low ≤ pm ∧ pm ≤ high)) →
    aqiLoop pm bs = none
  | [], _ => rfl
  | (low, high, al, ah) :: rest, hbs => by
      simp only [aqiLoop]
      rw [if_neg (hbs low high al ah (List.mem_cons_self _ _))]
      exact aqiLoop_eq_none pm rest fun l h a b hm => hbs l h a b (List.mem_cons_of_mem _ hm)

theorem aqiLoop_range (pm : ℚ) : ∀ (bs : List (ℚ × ℚ × ℤ × ℤ)),
    (∀ low high al ah, (low, high, al, ah) ∈ bs →
        low < high ∧ 0 ≤ al ∧ al ≤ ah ∧ ah ≤ 999) →
    ∀ a : ℤ, aqiLoop pm bs = some a → 0 ≤ a ∧ a ≤ 999
  | [], _, a, h => by simp [aqiLoop] at h
  | (low, high, al, ah) :: rest, hbs, a, h => by
      simp only [aqiLoop] at h
      by_cases hc : low ≤ pm ∧ pm ≤ high
      · rw [if_pos hc] at h
        obtain ⟨hlh, h0, hi, h999⟩ := hbs low high al ah (List.mem_cons_self _ _)
        have hb := interp_bounds pm low high al ah hlh hi hc.1 hc.2
        injection h with h
        omega
      · rw [if_neg hc] at h
        exact aqiLoop_range pm rest
          (fun l hh a2 b2 hm => hbs l hh a2 b2 (List.mem_cons_of_mem _ hm)) a h

/-- C1: the AQI engine maps the anchor concentrations exactly:
`calculate_aqi 0 = 0` (categorized Good), `calculate_aqi 9.0 = 50`,
`calculate_aqi 35.4 = 100`, `calculate_aqi 125.4 = 200`; and a value lying
exactly on a band boundary is matched by the lower band inclusively, as
witnessed at all four boundary test values 9.0, 9.1, 35.4 and 35.5. -/
theorem aqi_anchor_values :
    calculate_aqi 0 = some 0 ∧ aqi_remark (calculate_aqi 0) = "Good"
    ∧ calculate_aqi 9 = some 50
    ∧ calculate_aqi (354/10) = some 100
    ∧ calculate_aqi (1254/10) = some 200
    ∧ calculate_aqi (91/10) = some 51
    ∧ calculate_aqi (355/10) = some 101 := by
  decide

/-- C4: a concentration outside every breakpoint band (negative, above
99999.9, or strictly inside an inter-band gap) yields a missing AQI
(`none`, the embedding of `np.nan`), and the derived category remark is
Unknown.  `calculate_aqi` and `aqi_remark` are total functions, matching
that the Python code on this path never raises. -/
theorem aqi_out_of_band (pm : ℚ)
    (h : ∀ low high al ah, (low, high, al, ah) ∈ breakpoints → ¬(low ≤ pm ∧ pm ≤ high)) :
    calculate_aqi pm = none ∧ aqi_remark (calculate_aqi pm) = "Unknown" := by
  have h1 : calculate_aqi pm = none := aqiLoop_eq_none pm breakpoints h
  exact ⟨h1, by rw [h1]; rfl⟩

/-- Witness for C4 at the in-gap concentration 9.05. -/
theorem aqi_out_of_band_witness :
    calculate_aqi (181/20) = none ∧ aqi_remark (calculate_aqi (181/20)) = "Unknown" :=
  aqi_out_of_band (181/20) (by
    intro low high al ah hmem
    simp only [breakpoints, List.mem_cons, List.not_mem_nil, or_false, Prod.mk.injEq] at hmem
    rcases hmem with ⟨rfl, rfl, rfl, rfl⟩ | ⟨rfl, rfl, rfl, rfl⟩ | ⟨rfl, rfl, rfl, rfl⟩ |
      ⟨rfl, rfl, rfl, rfl⟩ | ⟨rfl, rfl, rfl, rfl⟩ | ⟨rfl, rfl, rfl, rfl⟩ | ⟨rfl, rfl, rfl, rfl⟩ <;>
      decide)

/-- C10: a concentration inside one of the seven breakpoint bands yields
an integer AQI between that band's low and high index inclusive, and
consequently every non-missing AQI the engine produces is an integer in
the range 0 to 999. -/
theorem aqi_band_range :
    (∀ (pm low high : ℚ) (aqi_low aqi_high : ℤ),
        (low, high, aqi_low, aqi_high) ∈ breakpoints → low ≤ pm → pm ≤ high →
        ∃ a, calculate_aqi pm = some a ∧ aqi_low ≤ a ∧ a ≤ aqi_high)
    ∧ (∀ (pm : ℚ) (a : ℤ), calculate_aqi pm = some a → 0 ≤ a ∧ a ≤ 999) := by
  constructor
  · intro pm low high aqi_low aqi_high hmem h1 h2
    simp only [breakpoints, List.mem_cons, List.not_mem_nil, or_false, Prod.mk.injEq] at hmem
    rcases hmem with ⟨rfl, rfl, rfl, rfl⟩ | ⟨rfl, rfl, rfl, rfl⟩ | ⟨rfl, rfl, rfl, rfl⟩ |
      ⟨rfl, rfl, rfl, rfl⟩ | ⟨rfl, rfl, rfl, rfl⟩ | ⟨rfl, rfl, rfl, rfl⟩ | ⟨rfl, rfl, rfl, rfl⟩
    · have hb := interp_bounds pm 0 9 0 50 (by norm_num) (by norm_num) h1 h2
      refine ⟨_, ?_, hb.1, hb.2⟩
      simp only [calculate_aqi, breakpoints, aqiLoop]
      rw [if_pos ⟨h1, h2⟩]
    · have hb := interp_bounds pm (91/10) (354/10) 51 100 (by norm_num) (by norm_num) h1 h2
      refine ⟨_, ?_, hb.1, hb.2⟩
      simp only [calculate_aqi, breakpoints, aqiLoop]
      rw [if_neg (fun hc => absurd hc.2 (not_le.mpr (by linarith)))]
      rw [if_pos ⟨h1, h2⟩]
    · have hb := interp_bounds pm (355/10) (554/10) 101 150 (by norm_num) (by norm_num) h1 h2
      refine ⟨_, ?_, hb.1, hb.2⟩
      simp only [calculate_aqi, breakpoints, aqiLoop]
      rw [if_neg (fun hc => absurd hc.2 (not_le.mpr (by linarith)))]
      rw [if_neg (fun hc => absurd hc.2 (not_le.mpr (by linarith)))]
      rw [if_pos ⟨h1, h2⟩]
    · have hb := interp_bounds pm (555/10) (1254/10) 151 200 (by norm_num) (by norm_num) h1 h2
      refine ⟨_, ?_, hb.1, hb.2⟩
      simp only [calculate_aqi, breakpoints, aqiLoop]
      rw [if_neg (fun hc => absurd hc.2 (not_le.mpr (by linarith)))]
      rw [if_neg (fun hc => absurd hc.2 (not_le.mpr (by linarith)))]
      rw [if_neg (fun hc => absurd hc.2 (not_le.mpr (by linarith)))]
      rw [if_pos ⟨h1, h2⟩]
    · have hb := interp_bounds pm (1255/10) (2254/10) 201 300 (by norm_num) (by norm_num) h1 h2
      refine ⟨_, ?_, hb.1, hb.2⟩
      simp only [calculate_aqi, breakpoints, aqiLoop]
      rw [if_neg (fun hc => absurd hc.2 (not_le.mpr (by linarith)))]
      rw [if_neg (fun hc => absurd hc.2 (not_le.mpr (by linarith)))]
      rw [if_neg (fun hc => absurd hc.2 (not_le.mpr (by linarith)))]
      rw [if_neg (fun hc => absurd hc.2 (not_le.mpr (by linarith)))]
      rw [if_pos ⟨h1, h2⟩]
    · have hb := interp_bounds pm (2255/10) (3254/10) 301 500 (by norm_num) (by norm_num) h1 h2
      refine ⟨_, ?_, hb.1, hb.2⟩
      simp only [calculate_aqi, breakpoints, aqiLoop]
      rw [if_neg (fun hc => absurd hc.2 (not_le.mpr (by linarith)))]
      rw [if_neg (fun hc => absurd hc.2 (not_le.mpr (by linarith)))]
      rw [if_neg (fun hc => absurd hc.2 (not_le.mpr (by linarith)))]
      rw [if_neg (fun hc => absurd hc.2 (not_le.mpr (by linarith)))]
      rw [if_neg (fun hc => absurd hc.2 (not_le.mpr (by linarith)))]
      rw [if_pos ⟨h1, h2⟩]
    · have hb := interp_bounds pm (3255/10) (999999/10) 501 999 (by norm_num) (by norm_num) h1 h2
      refine ⟨_, ?_, hb.1, hb.2⟩
      simp only [calculate_aqi, breakpoints, aqiLoop]
      rw [if_neg (fun hc => absurd hc.2 (not_le.mpr (by linarith)))]
      rw [if_neg (fun hc => absurd hc.2 (not_le.mpr (by linarith)))]
      rw [if_neg (fun hc => absurd hc.2 (not_le.mpr (by linarith)))]
      rw [if_neg (fun hc => absurd hc.2 (not_le.mpr (by linarith)))]
      rw [if_neg (fun hc => absurd hc.2 (not_le.mpr (by linarith)))]
      rw [if_neg (fun hc => absurd hc.2 (not_le.mpr (by linarith)))]
      rw [if_pos ⟨h1, h2⟩]
  · intro pm a h
    refine aqiLoop_range pm breakpoints ?_ a h
    intro low high al ah hmem
    simp only [breakpoints, List.mem_cons, List.not_mem_nil, or_false, Prod.mk.injEq] at hmem
    rcases hmem with ⟨rfl, rfl, rfl, rfl⟩ | ⟨rfl, rfl, rfl, rfl⟩ | ⟨rfl, rfl, rfl, rfl⟩ |
      ⟨rfl, rfl, rfl, rfl⟩ | ⟨rfl, rfl, rfl, rfl⟩ | ⟨rfl, rfl, rfl, rfl⟩ | ⟨rfl, rfl, rfl, rfl⟩ <;>
      refine ⟨by norm_num, by norm_num, by norm_num, by norm_num⟩

/-- Witness for C10 inside the third band at concentration 50. -/
theorem aqi_band_range_witness :
    ∃ a, calculate_aqi 50 = some a ∧ (101 : ℤ) ≤ a ∧ a ≤ 150 :=
  aqi_band_range.1 50 (355/10) (554/10) 101 150 (by decide) (by norm_num) (by norm_num)

/-! ## Theorems about the Column Normalizer -/

/-- C8 counterexample: the Quant variant of `standardize_columns` does not
rename a `pm_2_5` header — its alias list omits `pm_2_5` — while the
gravimetric/Airqo variant does, so the claim that the Column Normalizer
(which the claim sources locate in both variants) maps `pm_2_5` to `pm25`
for every input dataframe is false. -/
theorem standardize_pm_2_5_cex :
    standardize_columns ["pm_2_5"] = ["pm_2_5"]
    ∧ standardize_columns ["pm_2_5"] ≠ ["pm25"]
    ∧ standardize_columns_grav ["pm_2_5"] = ["pm25"] := by
  decide

/-- C8 (amended): both Column Normalizer variants rename headers matching
their alias sets case- and whitespace-insensitively to the canonical name
and pass every unrecognized header through unchanged, and both are total
functions (never raise); the gravimetric/Airqo alias set for `pm25`
includes `pm_2_5` but the Quant alias set does not, so only the
gravimetric/Airqo variant renames `pm_2_5`. -/
theorem standardize_columns_spec (c : String) :
    (stripLower c ∈ grav_pm25_cols.map lowerStr → stdCol grav_pm25_cols c = "pm25")
    ∧ (stripLower c ∈ quant_pm25_cols.map lowerStr → stdCol quant_pm25_cols c = "pm25")
    ∧ (stripLower c ∈ pm10_cols.map lowerStr →
        stdCol grav_pm25_cols c = "pm10" ∧ stdCol quant_pm25_cols c = "pm10")
    ∧ (stripLower c ∈ site_cols.map lowerStr →
        stdCol grav_pm25_cols c = "site" ∧ stdCol quant_pm25_cols c = "site")
    ∧ (stripLower c ∉ grav_pm25_cols.map lowerStr →
        stripLower c ∉ quant_pm25_cols.map lowerStr →
        stripLower c ∉ pm10_cols.map lowerStr →
        stripLower c ∉ site_cols.map lowerStr →
        stdCol grav_pm25_cols c = c ∧ stdCol quant_pm25_cols c = c)
    ∧ standardize_columns [c] = [stdCol quant_pm25_cols c]
    ∧ standardize_columns_grav [c] = [stdCol grav_pm25_cols c] := by
  refine ⟨?_, ?_, ?_, ?_, ?_, rfl, rfl⟩
  · intro h
    unfold stdCol
    rw [if_pos h]
  · intro h
    unfold stdCol
    rw [if_pos h]
  · intro h
    have hmap : pm10_cols.map lowerStr = ["pm10", "pm10", "pm_10"] := by decide
    rw [hmap] at h
    simp only [List.mem_cons, List.not_mem_nil, or_false] at h
    rcases h with h | h | h <;>
      exact ⟨by unfold stdCol; rw [h]; rw [if_neg (by decide), if_pos (by decide)],
             by unfold stdCol; rw [h]; rw [if_neg (by decide), if_pos (by decide)]⟩
  · intro h
    have hmap : site_cols.map lowerStr = ["site", "station", "location"] := by decide
    rw [hmap] at h
    simp only [List.mem_cons, List.not_mem_nil, or_false] at h
    rcases h with h | h | h <;>
      exact ⟨by unfold stdCol; rw [h]; rw [if_neg (by decide), if_neg (by decide), if_pos (by decide)],
             by unfold stdCol; rw [h]; rw [if_neg (by decide), if_neg (by decide), if_pos (by decide)]⟩
  · intro hg hq h10 hs
    constructor
    · unfold stdCol
      rw [if_neg hg, if_neg h10, if_neg hs]
    · unfold stdCol
      rw [if_neg hq, if_neg h10, if_neg hs]

/-- Witness for C8 at the header `PM2.5` (case-insensitive rename) and at a
stripped header. -/
theorem standardize_columns_spec_witness :
    stdCol grav_pm25_cols "PM2.5" = "pm25" ∧ stdCol quant_pm25_cols " Station " = "site" :=
  ⟨(standardize_columns_spec "PM2.5").1 (by decide),
   ((standardize_columns_spec " Station ").2.2.2.1 (by decide)).2⟩

/-! ## Theorems about the Date Parser -/

theorem colIdx_some_of_mem (cols : List String) (c : String) (h : c ∈ cols) :
    ∃ j, colIdx cols c = some j := by
  have : (cols.findIdx? fun x => x == c).isSome = cols.any fun x => x == c :=
    List.findIdx?_isSome
  have hany : (cols.any fun x => x == c) = true :=
    List.any_eq_true.mpr ⟨c, h, by simp⟩
  rw [hany] at this
  obtain ⟨j, hj⟩ := Option.isSome_iff_exists.mp this
  exact ⟨j, hj⟩

/-- C9 counterexample: a frame with a column named `date` none of whose
values parses is NOT returned unchanged — the parser appends a `datetime`
column and drops every row — refuting the claim that any input frame in
which no column parses as a timestamp passes through unchanged. -/
theorem parse_dates_unchanged_cex :
    parse_dates (fun _ => none) ⟨["date", "pm25"], [[Cell.str "hello", Cell.str "7"]]⟩
      = ⟨["date", "pm25", "datetime"], []⟩
    ∧ parse_dates (fun _ => none) ⟨["date", "pm25"], [[Cell.str "hello", Cell.str "7"]]⟩
      ≠ ⟨["date", "pm25"], [[Cell.str "hello", Cell.str "7"]]⟩ := by
  decide

/-- C9 (amended): the Date Parser is a total function (never raises); when
no column name contains `date` or `time` — hence no parse is attempted —
the frame is returned unchanged, with the same columns and rows; and
whenever the output has a `datetime` column, every surviving row has a
non-missing value there, i.e. rows whose timestamp fails to parse are
dropped rather than kept or raised on.  A frame with a candidate column
none of whose values parses is however returned with an added `datetime`
column and no rows, not unchanged. -/
theorem parse_dates_spec (P : Cell → Option Timestamp) (df : DF) :
    (df.cols.findIdx? isDateTimeName = none → parse_dates P df = df)
    ∧ (∀ j, colIdx (parse_dates P df).cols "datetime" = some j →
        ∀ r ∈ (parse_dates P df).rows, r.getD j Cell.na ≠ Cell.na) := by
  constructor
  · intro h
    simp only [parse_dates, h]
  · intro j hj r hr
    rcases hI : df.cols.findIdx? isDateTimeName with _ | i
    · -- no candidate column: the frame is unchanged, and it cannot contain
      -- a column named datetime since that name contains the pattern
      simp only [parse_dates, hI] at hj hr
      have hnone : ∀ x ∈ df.cols, isDateTimeName x = false :=
        List.findIdx?_eq_none_iff.mp hI
      have hmem : "datetime" ∈ df.cols := by
        rcases List.findIdx?_eq_some_iff_getElem.mp hj with ⟨hlt, hget, _⟩
        have := List.getElem_mem hlt
        have hx : df.cols[j] = "datetime" := by simpa using hget
        rwa [hx] at this
      have := hnone "datetime" hmem
      simp [isDateTimeName, containsSub, occursL, startsWithL, lowerStr, lowerChar] at this
    · -- a candidate column exists: the output rows passed the dropna filter
      simp only [parse_dates, hI] at hj hr
      set df1 := assignCol df "datetime" (df.rows.map fun r => toCell (P (r.getD i Cell.na)))
        with hdf1
      have hmem1 : "datetime" ∈ df1.cols := by
        rw [hdf1]
        unfold assignCol
        rcases hC : colIdx df.cols "datetime" with _ | j0
        · simp
        · simp only [hC]
          rcases List.findIdx?_eq_some_iff_getElem.mp hC with ⟨hlt, hget, _⟩
          have hm := List.getElem_mem hlt
          have hx : df.cols[j0] = "datetime" := by simpa using hget
          rw [hx] at hm
          simpa using hm
      obtain ⟨j1, hj1⟩ := colIdx_some_of_mem df1.cols "datetime" hmem1
      simp only [dropnaSubset, hj1] at hj hr
      have hjj : j = j1 := by
        have := hj
        simp only [Option.some.injEq] at this
        omega
      subst hjj
      have hq := (List.mem_filter.mp hr).2
      simp only [Bool.not_eq_true'] at hq
      intro hna
      rw [hna] at hq
      simp [isNaCell] at hq

/-- Witness for C9: a frame with no date- or time-named column passes
through `parse_dates` unchanged. -/
theorem parse_dates_spec_witness :
    parse_dates (fun _ => none) ⟨["site", "pm25"], [[Cell.str "A", Cell.str "7"]]⟩
      = ⟨["site", "pm25"], [[Cell.str "A", Cell.str "7"]]⟩ :=
  (parse_dates_spec (fun _ => none) ⟨["site", "pm25"], [[Cell.str "A", Cell.str "7"]]⟩).1
    (by decide)

/-! ## Theorems about the Min/Max Summarizer -/

/-- C5 code bug: the Quant AQ `calculate_min_max` builds its `daily_avg`
frame with columns `site, day, year, month, corrected_pm25, pm10` and then
issues a named aggregation over a column `pm25`, which that frame does not
have — pandas raises `KeyError` on every invocation, so the Quant variant
never returns the min/max table the spec describes.  The gravimetric
variant, whose daily frame does carry `pm25`, returns the rounded daily
min/max values correctly, as evaluated on a concrete input. -/
theorem calculate_min_max_keyerror :
    (∀ df : List CRow, calculate_min_max df
      = Except.error "KeyError: column pm25 does not exist in daily_avg")
    ∧ calculate_min_max (cleaned [⟨⟨2023, 1, 2, 0, 0, 0⟩, "A", 10, 20, 30, 40⟩])
      = Except.error "KeyError: column pm25 does not exist in daily_avg"
    ∧ calculate_min_max_grav (cleaned_grav [⟨⟨2023, 1, 2, 0, 0, 0⟩, "A", 40, 50⟩])
      = [⟨2023, "A", "", 50, 50, 40, 40⟩] := by
  refine ⟨?_, ?_, ?_⟩
  · intro df
    unfold calculate_min_max
    rw [if_neg (by decide)]
  · unfold calculate_min_max
    rw [if_neg (by decide)]
  · decide

/-! ## Theorems about the correction formula -/

/-- The AQI categorisation step of `calculate_aqi_and_category` (source
lines 298-328): each daily row is paired with the AQI of its daily mean
corrected PM2.5 and the derived remark.  The shared `daily_avg` embedding
carries the `pm10` group mean as well; the AQI path reads only the
corrected PM2.5 mean, exactly as the source aggregation does. -/
def calculate_aqi_and_category (df : List CRow) : List (DRow × Option ℤ × String) :=
  (daily_avg df).map fun d =>
    (d, calculate_aqi d.corrected_pm25, aqi_remark (calculate_aqi d.corrected_pm25))

/-- C7: every row the Quant cleaner outputs carries
`corrected_pm25 = 0.94 pm25 - 0.34 temp - 0.08 rh + 19.82` over that same
row's raw fields; every daily row of the collapse feeding the exceedance
and AQI computations carries the group mean of the corrected series (not
of raw `pm25`); and the AQI table is computed from exactly that corrected
daily mean. -/
theorem corrected_pm25_spec (df : List QRow) (r : CRow) (hr : r ∈ cleaned df)
    (d : DRow) (hd : d ∈ daily_avg (cleaned df)) :
    r.corrected_pm25 = 94/100 * r.pm25 - 34/100 * r.temp - 8/100 * r.rh + 1982/100
    ∧ d.corrected_pm25 = meanQ (((cleaned df).filter
        fun x => decide (dKey x = dKeyD d)).map CRow.corrected_pm25)
    ∧ ∀ p ∈ calculate_aqi_and_category (cleaned df),
        p.2.1 = calculate_aqi p.1.corrected_pm25
        ∧ p.2.2 = aqi_remark (calculate_aqi p.1.corrected_pm25) := by
  refine ⟨?_, ?_, ?_⟩
  · have h0 : cleaned df = ((df.filter posOK).map enrich).filter
        (fun x => decide (20 ≤ covCount (enrichAll df) x.site x.month)) := rfl
    rw [h0] at hr
    have h1 := (List.mem_filter.mp hr).1
    rcases List.mem_map.mp h1 with ⟨q, _, hq⟩
    rw [← hq]
    rfl
  · rcases List.mem_map.mp hd with ⟨k, _, hdk⟩
    rw [← hdk, show dKeyD (dailyMk (cleaned df) k) = k from rfl]
    rfl
  · intro p hp
    rcases List.mem_map.mp hp with ⟨d2, _, hd2⟩
    rw [← hd2]
    exact ⟨rfl, rfl⟩

/-- A twenty-day, one-site input whose single (site, month) group meets
the 20-day coverage threshold, for the C7 witness. -/
def qdf20 : List QRow :=
  (List.range 20).map fun i => ⟨⟨2023, 1, i + 1, 0, 0, 0⟩, "A", 10, 20, 30, 40⟩

/-- A cleaned row of `qdf20`. -/
def crW : CRow := enrich ⟨⟨2023, 1, 1, 0, 0, 0⟩, "A", 10, 20, 30, 40⟩

/-- A daily row of the collapse of the cleaned `qdf20`. -/
def drW : DRow := dailyMk (cleaned qdf20) ("A", ⟨2023, 1, 1⟩, 2023, "2023-01")

/-- Witness for C7 on the twenty-day input. -/
theorem corrected_pm25_spec_witness :
    crW ∈ cleaned qdf20 ∧ drW ∈ daily_avg (cleaned qdf20)
    ∧ (crW.corrected_pm25 = 94/100 * crW.pm25 - 34/100 * crW.temp - 8/100 * crW.rh + 1982/100
       ∧ drW.corrected_pm25 = meanQ (((cleaned qdf20).filter
            fun x => decide (dKey x = dKeyD drW)).map CRow.corrected_pm25)
       ∧ ∀ p ∈ calculate_aqi_and_category (cleaned qdf20),
           p.2.1 = calculate_aqi p.1.corrected_pm25
           ∧ p.2.2 = aqi_remark (calculate_aqi p.1.corrected_pm25)) :=
  ⟨by decide, by decide, corrected_pm25_spec qdf20 crW (by decide) drW (by decide)⟩

/-! ## Idempotence of the Quant Record Cleaner -/

/-- Restricting an enriched row to the required input columns recovers the
input row. -/
theorem toQ_enrich (q : QRow) : CRow.toQ (enrich q) = q := rfl

/-- Unfolding of `cleaned` without its local `let`. -/
theorem cleaned_def (l : List QRow) :
    cleaned l = (enrichAll l).filter
      fun r => decide (20 ≤ covCount (enrichAll l) r.site r.month) := rfl

/-- C6: the Quant Record Cleaner is idempotent: feeding its own output
(restricted to the required input columns, which is what its column
selection performs on a second run) back through `cleaned` returns the
same rows in the same order — the recomputed correction and calendar
fields coincide, the positivity filter drops nothing, and every surviving
(site, month) group still meets the 20-day coverage threshold because the
coverage rule removes groups only as a whole. -/
theorem cleaned_idempotent (df : List QRow) :
    cleaned ((cleaned df).map CRow.toQ) = cleaned df := by
  have h0 : cleaned df = ((df.filter posOK).map enrich).filter
      (fun r => decide (20 ≤ covCount (enrichAll df) r.site r.month)) := rfl
  have hA : (cleaned df).map CRow.toQ = (df.filter posOK).filter
      ((fun r => decide (20 ≤ covCount (enrichAll df) r.site r.month)) ∘ enrich) := by
    rw [h0, List.filter_map, List.map_map,
      show CRow.toQ ∘ enrich = id from funext toQ_enrich, List.map_id]
  have hB : enrichAll ((cleaned df).map CRow.toQ) = cleaned df := by
    rw [hA]
    have h1 : enrichAll ((df.filter posOK).filter
        ((fun r => decide (20 ≤ covCount (enrichAll df) r.site r.month)) ∘ enrich))
        = (((df.filter posOK).filter
            ((fun r => decide (20 ≤ covCount (enrichAll df) r.site r.month)) ∘ enrich)).filter
            posOK).map enrich := rfl
    rw [h1]
    have h2 : ((df.filter posOK).filter
        ((fun r => decide (20 ≤ covCount (enrichAll df) r.site r.month)) ∘ enrich)).filter posOK
        = (df.filter posOK).filter
            ((fun r => decide (20 ≤ covCount (enrichAll df) r.site r.month)) ∘ enrich) := by
      refine List.filter_eq_self.mpr ?_
      intro q hq
      exact (List.mem_filter.mp (List.mem_filter.mp hq).1).2
    rw [h2, ← List.filter_map, ← h0]
  have hC : cleaned ((cleaned df).map CRow.toQ)
      = (cleaned df).filter
          (fun r => decide (20 ≤ covCount (cleaned df) r.site r.month)) := by
    show (enrichAll ((cleaned df).map CRow.toQ)).filter
        (fun r => decide (20 ≤ covCount (enrichAll ((cleaned df).map CRow.toQ)) r.site r.month))
      = _
    rw [hB]
  rw [hC]
  refine List.filter_eq_self.mpr ?_
  intro r hr
  have hr2 := hr
  rw [h0] at hr2
  have hcov : 20 ≤ covCount (enrichAll df) r.site r.month :=
    of_decide_eq_true (List.mem_filter.mp hr2).2
  have hgrp : (cleaned df).filter (fun x => decide (x.site = r.site ∧ x.month = r.month))
      = (enrichAll df).filter (fun x => decide (x.site = r.site ∧ x.month = r.month)) := by
    show _ = ((df.filter posOK).map enrich).filter
        (fun x => decide (x.site = r.site ∧ x.month = r.month))
    rw [h0, List.filter_filter]
    refine List.filter_congr ?_
    intro x _
    by_cases hgx : x.site = r.site ∧ x.month = r.month
    · have hxx : covCount (enrichAll df) x.site x.month
          = covCount (enrichAll df) r.site r.month := by rw [hgx.1, hgx.2]
      simp [hgx, hxx, hcov]
    · simp [hgx]
  have hcc : covCount (cleaned df) r.site r.month
      = covCount (enrichAll df) r.site r.month := by
    unfold covCount
    rw [hgrp]
  rw [hcc]
  exact decide_eq_true hcov

/-! ## Theorems about the coverage rule -/

/-- Every daily row originates from a cleaned row of the same site and
month. -/
theorem mem_daily_avg_src (df : List CRow) (d : DRow) (hd : d ∈ daily_avg df) :
    ∃ r ∈ df, r.site = d.site ∧ r.month = d.month := by
  unfold daily_avg at hd
  rcases List.mem_map.mp hd with ⟨k, hk, hdk⟩
  unfold groupKeys at hk
  have hk2 : k ∈ df.map dKey := List.mem_dedup.mp hk
  rcases List.mem_map.mp hk2 with ⟨r, hr, hrk⟩
  refine ⟨r, hr, ?_, ?_⟩
  · rw [← hdk, ← hrk]; rfl
  · rw [← hdk, ← hrk]; rfl

/-- C3 counterexample: the gravimetric Record Cleaner enforces no coverage
rule at all — a (site, month) group with a single observed day (far below
every threshold in the 15-20 range) survives in full into the cleaner
output that all downstream aggregates consume. -/
theorem coverage_grav_cex :
    cleaned_grav [⟨⟨2023, 1, 2, 0, 0, 0⟩, "A", 40, 50⟩]
      = [enrichG ⟨⟨2023, 1, 2, 0, 0, 0⟩, "A", 40, 50⟩]
    ∧ covCountG (cleaned_grav [⟨⟨2023, 1, 2, 0, 0, 0⟩, "A", 40, 50⟩]) "A" "2023-01" = 1
    ∧ (enrichG ⟨⟨2023, 1, 2, 0, 0, 0⟩, "A", 40, 50⟩).site = "A"
    ∧ (enrichG ⟨⟨2023, 1, 2, 0, 0, 0⟩, "A", 40, 50⟩).month = "2023-01" := by
  decide

/-- C3 (amended): the coverage rule holds for the two cleaner variants
that implement it — the Quant AQ cleaner (threshold 20) and the Airqo
cleaner (threshold 15): a (site, month) group whose distinct-day count is
below the threshold contributes no rows to the cleaner output, and hence
none to the daily collapse every downstream aggregate, exceedance, AQI and
min/max table is built from.  The gravimetric cleaner applies no coverage
rule (see the counterexample). -/
theorem coverage_rule_spec (dfQ : List QRow) (dfA : List ARow) (s mo : String) :
    (covCount (enrichAll dfQ) s mo < 20 →
      ((cleaned dfQ).filter fun r => decide (r.site = s ∧ r.month = mo)) = []
      ∧ ((daily_avg (cleaned dfQ)).filter fun d => decide (d.site = s ∧ d.month = mo)) = [])
    ∧ (covCountA (dfA.map enrichA) s mo < 15 →
      ((cleaned_airqo dfA).filter fun r => decide (r.site = s ∧ r.month = mo)) = []) := by
  constructor
  · intro h
    have hrow : ∀ r ∈ cleaned dfQ, ¬(r.site = s ∧ r.month = mo) := by
      intro r hr hsm
      unfold cleaned at hr
      have hcov := of_decide_eq_true (List.mem_filter.mp hr).2
      rw [hsm.1, hsm.2] at hcov
      omega
    constructor
    · exact List.filter_eq_nil_iff.mpr fun r hr => by
        simpa using hrow r hr
    · refine List.filter_eq_nil_iff.mpr fun d hd => ?_
      rcases mem_daily_avg_src (cleaned dfQ) d hd with ⟨r, hr, hs2, hm2⟩
      intro hc
      have := of_decide_eq_true hc
      exact hrow r hr ⟨hs2.trans this.1, hm2.trans this.2⟩
  · intro h
    refine List.filter_eq_nil_iff.mpr fun r hr => ?_
    intro hc
    have hsm := of_decide_eq_true hc
    unfold cleaned_airqo at hr
    have hcov := of_decide_eq_true (List.mem_filter.mp hr).2
    rw [hsm.1, hsm.2] at hcov
    omega

/-! ## Theorems about the Exceedance Calculator -/

theorem pyRound_intCast (n : ℤ) : pyRound ((n : ℚ)) = n := by
  unfold pyRound
  rw [Int.floor_intCast]
  norm_num

/-- A left merge with a `countsBy` size table followed by `fillna(0)` is
the size of the corresponding filtered group, with 0 for an absent key. -/
theorem lookup0_countsBy {α κ : Type} [DecidableEq κ] (key : α → κ) (l : List α) (k : κ) :
    lookup0 (countsBy key l) k = (l.filter fun a => decide (key a = k)).length := by
  unfold lookup0 countsBy
  rcases hf : ((groupKeys key l).map fun k2 => (k2, (groupRows key l k2).length)).find?
      (fun p => decide (p.1 = k)) with _ | p
  · have hnone : ∀ a ∈ l, ¬(key a = k) := by
      intro a ha hk
      have hkmem : k ∈ groupKeys key l := by
        unfold groupKeys
        exact List.mem_dedup.mpr (hk ▸ List.mem_map_of_mem key ha)
      have := List.find?_eq_none.mp hf (k, (groupRows key l k).length)
        (List.mem_map_of_mem _ hkmem)
      simp at this
    have hfe : (l.filter fun a => decide (key a = k)) = [] :=
      List.filter_eq_nil_iff.mpr fun a ha => by simpa using hnone a ha
    simp only [hf, hfe]
    rfl
  · have hm := List.mem_of_find?_eq_some hf
    have hp := List.find?_some hf
    rcases List.mem_map.mp hm with ⟨k2, _, hpk⟩
    have hk2k : k2 = k := by
      rw [← hpk] at hp
      simpa using hp
    simp only [hf]
    rw [← hpk, hk2k]
    rfl

/-- C2: the Exceedance Calculator first collapses to one row per daily
group key (its key list is duplicate-free), then for each output row —
one per (year, site) — the total is the number of daily rows of that
(year, site), the PM2.5 and PM10 exceedance counts are the numbers of
those daily rows whose daily mean exceeds 35 (corrected PM2.5) and 70
(PM10) respectively — 0 when no day matches, via the left merge and
`fillna(0)` — the percentages are count / total × 100 rounded to one
decimal, and in particular 10 total days with 3 exceeding give exactly
30.0. -/
theorem calculate_exceedances_spec (df : List CRow) (e : ExRow)
    (he : e ∈ calculate_exceedances df) :
    ((daily_avg df).map dKeyD).Nodup
    ∧ e.total_records
        = ((daily_avg df).filter fun d => decide (ysKey d = (e.year, e.site))).length
    ∧ e.pm25_exceedance_count
        = ((daily_avg df).filter fun d =>
            decide (ysKey d = (e.year, e.site)) && decide (35 < d.corrected_pm25)).length
    ∧ e.pm10_exceedance_count
        = ((daily_avg df).filter fun d =>
            decide (ysKey d = (e.year, e.site)) && decide (70 < d.pm10)).length
    ∧ e.pm25_exceedance_percent
        = round1 ((e.pm25_exceedance_count : ℚ) / (e.total_records : ℚ) * 100)
    ∧ e.pm10_exceedance_percent
        = round1 ((e.pm10_exceedance_count : ℚ) / (e.total_records : ℚ) * 100)
    ∧ (e.total_records = 10 → e.pm25_exceedance_count = 3 →
        e.pm25_exceedance_percent = 30) := by
  have hnodup : ((daily_avg df).map dKeyD).Nodup := by
    have hmap : (daily_avg df).map dKeyD = groupKeys dKey df := by
      unfold daily_avg
      rw [List.map_map, show dKeyD ∘ dailyMk df = id from funext fun k => rfl, List.map_id]
    rw [hmap]
    exact List.nodup_dedup _
  unfold calculate_exceedances at he
  rcases List.mem_map.mp he with ⟨p, hp, hfe⟩
  rcases List.mem_map.mp hp with ⟨k, _, hpk⟩
  obtain ⟨ky, ks⟩ := k
  rw [← hfe, ← hpk]
  refine ⟨hnodup, rfl, ?_, ?_, rfl, rfl, ?_⟩
  · show lookup0 (countsBy ysKey ((daily_avg df).filter fun d => decide (35 < d.corrected_pm25)))
        (ky, ks) = _
    rw [lookup0_countsBy, List.filter_filter]
  · show lookup0 (countsBy ysKey ((daily_avg df).filter fun d => decide (70 < d.pm10)))
        (ky, ks) = _
    rw [lookup0_countsBy, List.filter_filter]
  · intro h10 h3
    show round1 ((lookup0 (countsBy ysKey ((daily_avg df).filter
        fun d => decide (35 < d.corrected_pm25))) (ky, ks) : ℚ)
        / ((groupRows ysKey (daily_avg df) (ky, ks)).length : ℚ) * 100) = 30
    have h10b : ((groupRows ysKey (daily_avg df) (ky, ks)).length : ℚ) = 10 := by
      exact_mod_cast congrArg Nat.cast h10
    have h3b : ((lookup0 (countsBy ysKey ((daily_avg df).filter
        fun d => decide (35 < d.corrected_pm25))) (ky, ks) : ℤ) : ℚ) = 3 := by
      exact_mod_cast congrArg Nat.cast h3
    rw [show ((lookup0 (countsBy ysKey ((daily_avg df).filter
        fun d => decide (35 < d.corrected_pm25))) (ky, ks) : ℚ)) = 3 by exact_mod_cast h3b]
    rw [h10b]
    rw [show (3 : ℚ) / 10 * 100 = ((30 : ℤ) : ℚ) by norm_num]
    unfold round1
    rw [show (10 : ℚ) * ((30 : ℤ) : ℚ) = ((300 : ℤ) : ℚ) by norm_num, pyRound_intCast]
    norm_num

/-- A ten-day, one-site input for the C2 witness: three days with
corrected PM2.5 of 40 (above 35), seven with 10, PM10 always 50. -/
def exDfW : List CRow :=
  (List.range 10).map fun i =>
    ⟨⟨2023, 1, i + 1, 0, 0, 0⟩, "A", 10, 50, 30, 40, if i < 3 then 40 else 10,
      2023, "2023-01", "2023Q1", ⟨2023, 1, i + 1⟩, "Monday", "Weekday", "Non-Harmattan"⟩

/-- The exceedance row the calculator produces on `exDfW`. -/
def exEW : ExRow := ⟨2023, "A", 10, 3, 0, 30, 0⟩

/-- Witness for C2 on the ten-day input: the output row has 10 total days,
3 exceeding days and exactly 30.0 percent. -/
theorem calculate_exceedances_spec_witness :
    exEW ∈ calculate_exceedances exDfW
    ∧ (((daily_avg exDfW).map dKeyD).Nodup
    ∧ exEW.total_records
        = ((daily_avg exDfW).filter fun d => decide (ysKey d = (exEW.year, exEW.site))).length
    ∧ exEW.pm25_exceedance_count
        = ((daily_avg exDfW).filter fun d =>
            decide (ysKey d = (exEW.year, exEW.site)) && decide (35 < d.corrected_pm25)).length
    ∧ exEW.pm10_exceedance_count
        = ((daily_avg exDfW).filter fun d =>
            decide (ysKey d = (exEW.year, exEW.site)) && decide (70 < d.pm10)).length
    ∧ exEW.pm25_exceedance_percent
        = round1 ((exEW.pm25_exceedance_count : ℚ) / (exEW.total_records : ℚ) * 100)
    ∧ exEW.pm10_exceedance_percent
        = round1 ((exEW.pm10_exceedance_count : ℚ) / (exEW.total_records : ℚ) * 100)
    ∧ (exEW.total_records = 10 → exEW.pm25_exceedance_count = 3 →
        exEW.pm25_exceedance_percent = 30)) :=
  ⟨by decide, calculate_exceedances_spec exDfW exEW (by decide)⟩

/-- Witness for C3 at one-row Quant and Airqo frames whose single
(site, month) group has one distinct day. -/
theorem coverage_rule_spec_witness :
    ((cleaned [⟨⟨2023, 1, 2, 0, 0, 0⟩, "A", 10, 20, 30, 40⟩]).filter
        fun r => decide (r.site = "A" ∧ r.month = "2023-01")) = []
    ∧ ((daily_avg (cleaned [⟨⟨2023, 1, 2, 0, 0, 0⟩, "A", 10, 20, 30, 40⟩])).filter
        fun d => decide (d.site = "A" ∧ d.month = "2023-01")) = [] :=
  (coverage_rule_spec [⟨⟨2023, 1, 2, 0, 0, 0⟩, "A", 10, 20, 30, 40⟩]
    [⟨⟨2023, 1, 2, 0, 0, 0⟩, "A", 10, 20⟩] "A" "2023-01").1 (by decide)
